import Mathlib

/-!
Shallow embedding of the GeradorMIPS compiler middle-end and proofs about it.

Sources embedded:
* `AST.py`                — the AST node dataclasses;
* `AnalisadorSemantico.py` — scope-aware semantic analysis with type inference;
* `GeradorCodigoMIPS.py`  — MIPS code generation;
* `AnalisadorSLR.py`      — the syntactic error record and `p_error` callback
  (the LALR engine itself is the third-party PLY library and is modelled from
  the specification where noted).

Conventions: Python `Optional[X]` becomes `Option X`; Python dictionaries
become association lists looked up with `List.lookup` (first match wins; an
entry is only inserted after a membership check, so keys stay unique, making
the association list observationally equal to the dictionary); mutation of
`self` becomes explicit state passing; `self.xs.append(e)` becomes
`xs := xs ++ [e]`.  Apostrophes inside Python message strings are written
with the escape `\x27`.
-/

/-- Literal values carried by `Literal.valor` (a Python `int`, `float`, `str`
or `bool`).  A float is kept as its decimal rendering: the compiler only ever
interpolates the value into text, never computes with it. -/
inductive LitVal where
  | vint (n : Int)
  | vfloat (render : String)
  | vstr (s : String)
  | vbool (b : Bool)
deriving Repr, DecidableEq

/-- Python interpolates a literal value into an f-string; this is that
rendering (`vbool` never reaches an f-string: the `logico` branch of the
generator tests truthiness instead). -/
def LitVal.render : LitVal → String
  | .vint n => toString n
  | .vfloat r => r
  | .vstr s => s
  | .vbool b => if b then "True" else "False"

/-- Python truthiness of a literal value (`1 if no.valor else 0`).  For a
float Python tests the numeric value; the embedding tests the rendering,
which agrees on every literal the parser can build. -/
def LitVal.truthy : LitVal → Bool
  | .vint n => n != 0
  | .vfloat r => r != "0.0" && r != "0"
  | .vstr s => !s.isEmpty
  | .vbool b => b

/-- `Parametro` from `AST.py`: a function parameter with position, type and
name. -/
structure Parametro where
  linha : Nat
  coluna : Nat
  tipo : String
  nome : String
deriving Repr, DecidableEq

/-- The AST node dataclasses of `AST.py`, as one sum type.  Every variant
carries `linha` and `coluna` first, mirroring the `NoAST` base class. -/
inductive NoAST where
  | Programa (linha coluna : Nat) (comandos : List NoAST)
  | DeclaracaoVariavel (linha coluna : Nat) (tipo nome : String)
      (tamanho_array : Option Nat) (valor_inicial : Option NoAST)
  | DeclaracaoFuncao (linha coluna : Nat) (tipo_retorno nome : String)
      (parametros : List Parametro) (corpo : List NoAST)
  | Atribuicao (linha coluna : Nat) (nome : String) (expressao : NoAST)
  | ComandoSe (linha coluna : Nat) (condicao : NoAST)
      (bloco_verdadeiro : List NoAST) (bloco_falso : Option (List NoAST))
  | ComandoEnquanto (linha coluna : Nat) (condicao : NoAST) (bloco : List NoAST)
  | ComandoPara (linha coluna : Nat) (inicializacao condicao incremento : Option NoAST)
      (bloco : List NoAST)
  | ComandoEscreva (linha coluna : Nat) (expressao : NoAST)
  | ComandoLeia (linha coluna : Nat) (variavel : String)
  | ChamadaFuncao (linha coluna : Nat) (nome : String) (argumentos : List NoAST)
  | ExpressaoBinaria (linha coluna : Nat) (esquerda : NoAST) (operador : String)
      (direita : NoAST)
  | ExpressaoUnaria (linha coluna : Nat) (operador : String) (expressao : NoAST)
  | Literal (linha coluna : Nat) (valor : LitVal) (tipo : String)
  | Identificador (linha coluna : Nat) (nome : String)
deriving Repr

/-- Type names, exactly as in `AnalisadorSemantico.py`:
`Tipo = str  # 'inteiro', 'flutuante', 'logico', 'cadeia'`. -/
abbrev Tipo := String

/-- `ErroSemantico` from `AnalisadorSemantico.py`. -/
structure ErroSemantico where
  mensagem : String
  linha : Nat
  coluna : Nat
deriving Repr, DecidableEq

/-- The mutable state of an `AnalisadorSemantico` instance.  The Python
`tabela_simbolos` list keeps the innermost scope LAST (`append`/`pop` at the
end, lookup over `reversed(...)`); the embedding keeps frames innermost
FIRST, so that push/pop become cons/tail and the reversed search becomes an
in-order search — the same abstract stack. -/
structure AnalisadorSemantico where
  erros : List ErroSemantico
  tabela_simbolos : List (List (String × (Tipo × Bool)))
  funcoes : List (String × (Tipo × List Tipo))
deriving Repr, DecidableEq

/-- Python renders an `Optional[str]` inside an f-string as the bare string,
or as `None` when absent. -/
def pyStr : Option Tipo → String
  | some t => t
  | none => "None"

namespace AnalisadorSemantico

/-- `__init__`: empty error list, one (global) scope frame, no functions. -/
def init : AnalisadorSemantico := ⟨[], [[]], []⟩

/-- `self.erros.append(ErroSemantico(m, linha, coluna))`. -/
def addErro (a : AnalisadorSemantico) (m : String) (linha coluna : Nat) :
    AnalisadorSemantico :=
  { a with erros := a.erros ++ [⟨m, linha, coluna⟩] }

/-- `entrar_escopo`: push a fresh innermost frame. -/
def entrar_escopo (a : AnalisadorSemantico) : AnalisadorSemantico :=
  { a with tabela_simbolos := [] :: a.tabela_simbolos }

/-- `sair_escopo`: pop the innermost frame, but never the last one. -/
def sair_escopo (a : AnalisadorSemantico) : AnalisadorSemantico :=
  if a.tabela_simbolos.length > 1 then
    { a with tabela_simbolos := a.tabela_simbolos.tail }
  else a

/-- `declarar_variavel`: error if the name is already in the innermost frame,
otherwise record it there.  The `[]` case cannot arise: `init` starts with
one frame and `sair_escopo` never pops the last one. -/
def declarar_variavel (a : AnalisadorSemantico) (nome : String) (tipo : Tipo)
    (eh_array : Bool) (linha coluna : Nat) : AnalisadorSemantico :=
  match a.tabela_simbolos with
  | [] => a
  | escopo_atual :: resto =>
      if (escopo_atual.lookup nome).isSome then
        addErro a ("Variável \x27" ++ nome ++ "\x27 já declarada neste escopo") linha coluna
      else
        { a with tabela_simbolos := ((nome, (tipo, eh_array)) :: escopo_atual) :: resto }

/-- The loop of `buscar_variavel`: first hit walking from the innermost frame
outwards. -/
def buscar_frames (frames : List (List (String × (Tipo × Bool)))) (nome : String) :
    Option (Tipo × Bool) :=
  match frames with
  | [] => none
  | escopo :: resto =>
      match escopo.lookup nome with
      | some info => some info
      | none => buscar_frames resto nome

/-- `buscar_variavel`: resolve a name through the scope stack; on failure
record an error and return `None`. -/
def buscar_variavel (a : AnalisadorSemantico) (nome : String) (linha coluna : Nat) :
    Option (Tipo × Bool) × AnalisadorSemantico :=
  match buscar_frames a.tabela_simbolos nome with
  | some info => (some info, a)
  | none => (none, addErro a ("Variável \x27" ++ nome ++ "\x27 não declarada") linha coluna)

/-- `declarar_funcao`: error on redeclaration, otherwise record
`(returnType, paramTypes)` in the flat function table. -/
def declarar_funcao (a : AnalisadorSemantico) (nome : String) (tipo_retorno : Tipo)
    (params : List (String × Tipo)) (linha coluna : Nat) : AnalisadorSemantico :=
  if (a.funcoes.lookup nome).isSome then
    addErro a ("Função \x27" ++ nome ++ "\x27 já declarada") linha coluna
  else
    { a with funcoes := (nome, (tipo_retorno, params.map Prod.snd)) :: a.funcoes }

/-- `buscar_funcao`: look a function up; on failure record an error and
return `None`. -/
def buscar_funcao (a : AnalisadorSemantico) (nome : String) (linha coluna : Nat) :
    Option (Tipo × List Tipo) × AnalisadorSemantico :=
  match a.funcoes.lookup nome with
  | some info => (some info, a)
  | none => (none, addErro a ("Função \x27" ++ nome ++ "\x27 não declarada") linha coluna)

mutual

/-- `inferir_tipo`: bottom-up type inference, appending semantic errors as it
goes and yielding `none` for an unknown type.  Membership tests such as
`op in ['+', '-', '*', '/']` are spelled as chains of `==` over the same
lists; `x in ['inteiro', 'flutuante']` on an `Optional[str]` is false for
`None`, hence the comparisons against `some _`. -/
def inferir_tipo (a : AnalisadorSemantico) : NoAST → Option Tipo × AnalisadorSemantico
  | .Literal _ _ _ tipo => (some tipo, a)
  | .Identificador linha coluna nome =>
      match buscar_variavel a nome linha coluna with
      | (some info, a1) => (some info.1, a1)
      | (none, a1) => (none, a1)
  | .ExpressaoBinaria linha coluna esquerda op direita =>
      let r1 := inferir_tipo a esquerda
      let r2 := inferir_tipo r1.2 direita
      let esq_tipo := r1.1
      let dir_tipo := r2.1
      let a2 := r2.2
      if op == "+" || op == "-" || op == "*" || op == "/" then
        if (esq_tipo == some "inteiro" || esq_tipo == some "flutuante") &&
            (dir_tipo == some "inteiro" || dir_tipo == some "flutuante") then
          if esq_tipo == some "flutuante" || dir_tipo == some "flutuante" then
            (some "flutuante", a2)
          else
            (some "inteiro", a2)
        else
          (none, addErro a2 ("Operador \x27" ++ op ++ "\x27 requer operandos numéricos")
            linha coluna)
      else if op == ">" || op == "<" || op == ">=" || op == "<=" ||
          op == "==" || op == "!=" then
        if (esq_tipo == some "inteiro" || esq_tipo == some "flutuante") &&
            (dir_tipo == some "inteiro" || dir_tipo == some "flutuante") then
          (some "logico", a2)
        else if esq_tipo == dir_tipo &&
            (esq_tipo == some "inteiro" || esq_tipo == some "flutuante" ||
             esq_tipo == some "cadeia" || esq_tipo == some "logico") then
          (some "logico", a2)
        else
          (none, addErro a2 ("Comparação \x27" ++ op ++ "\x27 entre \x27" ++
            pyStr esq_tipo ++ "\x27 e \x27" ++ pyStr dir_tipo ++ "\x27 não é permitida")
            linha coluna)
      else if op == "e" || op == "ou" then
        if esq_tipo == some "logico" && dir_tipo == some "logico" then
          (some "logico", a2)
        else
          (none, addErro a2 ("Operador lógico \x27" ++ op ++
            "\x27 requer operandos booleanos (recebeu \x27" ++ pyStr esq_tipo ++
            "\x27 e \x27" ++ pyStr dir_tipo ++ "\x27)") linha coluna)
      else if op == "&&" then
        if esq_tipo == some "cadeia" && dir_tipo == some "cadeia" then
          (some "cadeia", a2)
        else
          (none, addErro a2 ("Concatenação \x27&&\x27 requer strings (recebeu \x27" ++
            pyStr esq_tipo ++ "\x27 e \x27" ++ pyStr dir_tipo ++ "\x27)") linha coluna)
      else
        (none, a2)
  | .ExpressaoUnaria linha coluna op expressao =>
      let r := inferir_tipo a expressao
      let expr_tipo := r.1
      let a1 := r.2
      if op == "!" then
        if expr_tipo == some "logico" then (some "logico", a1)
        else
          (none, addErro a1 ("Negação \x27!\x27 requer booleano (recebeu \x27" ++
            pyStr expr_tipo ++ "\x27)") linha coluna)
      else if op == "-" then
        if expr_tipo == some "inteiro" || expr_tipo == some "flutuante" then
          (expr_tipo, a1)
        else
          (none, addErro a1 ("Menos unário \x27-\x27 requer número (recebeu \x27" ++
            pyStr expr_tipo ++ "\x27)") linha coluna)
      else if op == "++" || op == "--" then
        if expr_tipo == some "inteiro" then (some "inteiro", a1)
        else
          (none, addErro a1 ("Operador \x27" ++ op ++ "\x27 requer inteiro (recebeu \x27" ++
            pyStr expr_tipo ++ "\x27)") linha coluna)
      else
        (none, a1)
  | .ChamadaFuncao linha coluna nome argumentos =>
      match buscar_funcao a nome linha coluna with
      | (some info, a1) =>
          if argumentos.length ≠ info.2.length then
            (none, addErro a1 ("Função \x27" ++ nome ++ "\x27 espera " ++
              toString info.2.length ++ " argumentos, mas recebeu " ++
              toString argumentos.length) linha coluna)
          else
            (some info.1, inferir_args a1 nome linha coluna argumentos info.2 0)
      | (none, a1) => (none, a1)
  | _ => (none, a)

/-- The argument loop of the `ChamadaFuncao` case: only entered with equally
long lists (the arity was just checked), so the mixed-length fallback is
unreachable. -/
def inferir_args (a : AnalisadorSemantico) (nome : String) (linha coluna : Nat) :
    List NoAST → List Tipo → Nat → AnalisadorSemantico
  | [], _, _ => a
  | _ :: _, [], _ => a
  | arg :: args, tp :: tps, i =>
      let r := inferir_tipo a arg
      let a1 :=
        if r.1 == some tp then r.2
        else addErro r.2 ("Argumento " ++ toString (i + 1) ++ " de \x27" ++ nome ++
          "\x27 deve ser \x27" ++ tp ++ "\x27, mas é \x27" ++ pyStr r.1 ++ "\x27")
          linha coluna
      inferir_args a1 nome linha coluna args tps (i + 1)

end

/-- The parameter loop of the `DeclaracaoFuncao` case:
`for nome_param, tipo_param in params: self.declarar_variavel(...)`. -/
def declarar_params (a : AnalisadorSemantico) (linha coluna : Nat) :
    List (String × Tipo) → AnalisadorSemantico
  | [] => a
  | (nome_param, tipo_param) :: resto =>
      declarar_params (declarar_variavel a nome_param tipo_param false linha coluna)
        linha coluna resto

mutual

/-- `visitar`: the statement-level traversal.  Python truthiness tests on
optional fields (`if no.valor_inicial:`, `if no.bloco_falso:`) become
`Option` matches, with the extra emptiness test where the field is a list
(an empty Python list is falsy). -/
def visitar (a : AnalisadorSemantico) : NoAST → AnalisadorSemantico
  | .Programa _ _ comandos => visitar_list a comandos
  | .DeclaracaoVariavel linha coluna tipo nome tamanho_array valor_inicial =>
      let a1 := declarar_variavel a nome tipo tamanho_array.isSome linha coluna
      match valor_inicial with
      | some v =>
          let r := inferir_tipo a1 v
          match r.1 with
          | some init_tipo =>
              if init_tipo != tipo then
                addErro r.2 ("Inicialização de \x27" ++ nome ++ "\x27 requer \x27" ++
                  tipo ++ "\x27, mas é \x27" ++ init_tipo ++ "\x27") linha coluna
              else r.2
          | none => r.2
      | none => a1
  | .DeclaracaoFuncao linha coluna tipo_retorno nome parametros corpo =>
      let params := parametros.map (fun p => (p.nome, p.tipo))
      let a1 := declarar_funcao a nome tipo_retorno params linha coluna
      let a2 := entrar_escopo a1
      let a3 := declarar_params a2 linha coluna params
      sair_escopo (visitar_list a3 corpo)
  | .Atribuicao linha coluna nome expressao =>
      match buscar_variavel a nome linha coluna with
      | (some var_info, a1) =>
          let r := inferir_tipo a1 expressao
          match r.1 with
          | some expr_tipo =>
              if expr_tipo != var_info.1 then
                addErro r.2 ("Atribuição a \x27" ++ nome ++ "\x27 requer \x27" ++
                  var_info.1 ++ "\x27, mas é \x27" ++ expr_tipo ++ "\x27") linha coluna
              else r.2
          | none => r.2
      | (none, a1) => a1
  | .ComandoSe linha coluna condicao bloco_verdadeiro bloco_falso =>
      let r := inferir_tipo a condicao
      let a1 :=
        if r.1 != some "logico" then
          addErro r.2 ("Condição de \x27se\x27 deve ser lógica") linha coluna
        else r.2
      let a2 := sair_escopo (visitar_list (entrar_escopo a1) bloco_verdadeiro)
      match bloco_falso with
      | some bf =>
          if bf.isEmpty then a2
          else sair_escopo (visitar_list (entrar_escopo a2) bf)
      | none => a2
  | .ComandoEnquanto linha coluna condicao bloco =>
      let r := inferir_tipo a condicao
      let a1 :=
        if r.1 != some "logico" then
          addErro r.2 ("Condição de \x27enquanto\x27 deve ser lógica") linha coluna
        else r.2
      sair_escopo (visitar_list (entrar_escopo a1) bloco)
  | .ComandoPara linha coluna inicializacao condicao incremento bloco =>
      let a1 := entrar_escopo a
      let a2 := visitar_opt a1 inicializacao
      let a3 :=
        match condicao with
        | some c =>
            let r := inferir_tipo a2 c
            if r.1 != some "logico" then
              addErro r.2 ("Condição de \x27para\x27 deve ser lógica") linha coluna
            else r.2
        | none => a2
      let a4 := visitar_opt a3 incremento
      sair_escopo (visitar_list a4 bloco)
  | .ComandoEscreva _ _ expressao => (inferir_tipo a expressao).2
  | .ComandoLeia linha coluna variavel => (buscar_variavel a variavel linha coluna).2
  | .ChamadaFuncao linha coluna nome argumentos =>
      (inferir_tipo a (.ChamadaFuncao linha coluna nome argumentos)).2
  | .ExpressaoBinaria linha coluna esquerda op direita =>
      (inferir_tipo a (.ExpressaoBinaria linha coluna esquerda op direita)).2
  | .ExpressaoUnaria linha coluna op expressao =>
      (inferir_tipo a (.ExpressaoUnaria linha coluna op expressao)).2
  | .Identificador linha coluna nome => (buscar_variavel a nome linha coluna).2
  | .Literal _ _ _ _ => a

/-- The `for cmd in ...: self.visitar(cmd)` loops. -/
def visitar_list (a : AnalisadorSemantico) : List NoAST → AnalisadorSemantico
  | [] => a
  | cmd :: cmds => visitar_list (visitar a cmd) cmds

/-- The guards `if no.inicializacao: self.visitar(no.inicializacao)` and
`if no.incremento: self.visitar(no.incremento)` of the `ComandoPara` case. -/
def visitar_opt (a : AnalisadorSemantico) : Option NoAST → AnalisadorSemantico
  | some no => visitar a no
  | none => a

end

/-- `analisar`: run the traversal on the AST (the Python `None` guard around
a missing AST only prints a message). -/
def analisar (a : AnalisadorSemantico) (ast : NoAST) : AnalisadorSemantico :=
  visitar a ast

end AnalisadorSemantico

/-- The mutable state of a `GeradorCodigoMIPS` instance: the emitted lines,
the temporary and label counters, and the variable/function storage maps. -/
structure GeradorCodigoMIPS where
  codigo : List String
  temp_count : Nat
  label_count : Nat
  var_map : List (String × String)
  func_map : List (String × String)
deriving Repr, DecidableEq

namespace GeradorCodigoMIPS

/-- `__init__`: the line buffer starts with the `.data` directive and a blank
line; counters at zero, maps empty. -/
def init : GeradorCodigoMIPS := ⟨[".data", ""], 0, 0, [], []⟩

/-- `self.codigo.append(linha)`. -/
def emit (g : GeradorCodigoMIPS) (linha : String) : GeradorCodigoMIPS :=
  { g with codigo := g.codigo ++ [linha] }

/-- `novo_temp`: round-robin temporary registers `$t0` … `$t9`. -/
def novo_temp (g : GeradorCodigoMIPS) : String × GeradorCodigoMIPS :=
  ("$t" ++ toString (g.temp_count % 10), { g with temp_count := g.temp_count + 1 })

/-- `nova_label`: globally unique labels `L0`, `L1`, …. -/
def nova_label (g : GeradorCodigoMIPS) : String × GeradorCodigoMIPS :=
  ("L" ++ toString g.label_count, { g with label_count := g.label_count + 1 })

/-- `alocar_variavel`: allocate static storage on first sight of a name; a
name already in `var_map` returns immediately (the source comments: already
allocated, e.g. function parameters).  The storage label is the name
itself. -/
def alocar_variavel (g : GeradorCodigoMIPS) (nome tipo : String)
    (eh_array : Bool) : GeradorCodigoMIPS :=
  if (g.var_map.lookup nome).isSome then g
  else
    let label := nome
    let g1 := { g with var_map := (nome, label) :: g.var_map }
    if eh_array then emit g1 (label ++ ": .space 40")
    else if tipo == "inteiro" || tipo == "logico" then emit g1 (label ++ ": .word 0")
    else if tipo == "flutuante" then emit g1 (label ++ ": .float 0.0")
    else if tipo == "cadeia" then emit g1 (label ++ ": .asciiz \"\"")
    else emit g1 (label ++ ": .word 0")

/-- Python indexes `self.var_map[nome]` directly, raising `KeyError` when the
name was never allocated (the spec declares that undefined behavior,
reachable only from semantically invalid input).  Every stored label is the
name itself, so the total model defaults to the name. -/
def var_map_get (g : GeradorCodigoMIPS) (nome : String) : String :=
  (g.var_map.lookup nome).getD nome

/-- Same as `var_map_get`, for `self.func_map[nome]` (labels are the
function names). -/
def func_map_get (g : GeradorCodigoMIPS) (nome : String) : String :=
  (g.func_map.lookup nome).getD nome

/-- Python interpolates an expression-visit result (a register name, or
`None` for a statement node) into instruction text. -/
def pyReg : Option String → String
  | some r => r
  | none => "None"

/-- Python reads `no.expressao.nome` in the increment/decrement case; defined
on the node kinds carrying a `nome` field (any other operand would raise
`AttributeError` — undefined behavior on input the parser never builds). -/
def nome_de : NoAST → String
  | .DeclaracaoVariavel _ _ _ nome _ _ => nome
  | .DeclaracaoFuncao _ _ _ nome _ _ => nome
  | .Atribuicao _ _ nome _ => nome
  | .ChamadaFuncao _ _ nome _ => nome
  | .Identificador _ _ nome => nome
  | _ => ""

/-- The parameter prologue of `DeclaracaoFuncao`:
`for i, param in enumerate(no.parametros[:4])` — allocate each parameter and
store the incoming argument register into its slot. -/
def salvar_params (g : GeradorCodigoMIPS) : List Parametro → Nat → GeradorCodigoMIPS
  | [], _ => g
  | p :: ps, i =>
      let g1 := alocar_variavel g p.nome p.tipo false
      salvar_params (emit g1 ("    sw $a" ++ toString i ++ ", " ++ var_map_get g1 p.nome))
        ps (i + 1)

mutual

/-- `visitar` of `GeradorCodigoMIPS.py`: emits code while walking the AST;
expression nodes return the register holding their value, statement nodes
return `none` (Python `None`).  The Python `else` branch that prints an
untreated-node comment is unreachable: every `AST.py` node class has a
branch. -/
def visitar (g : GeradorCodigoMIPS) : NoAST → Option String × GeradorCodigoMIPS
  | .Programa _ _ comandos => (none, visitar_list g comandos)
  | .DeclaracaoVariavel _ _ tipo nome tamanho_array valor_inicial =>
      let g1 := alocar_variavel g nome tipo tamanho_array.isSome
      match valor_inicial with
      | some v =>
          let r := visitar g1 v
          let label := var_map_get r.2 nome
          if tipo == "inteiro" || tipo == "logico" then
            (none, emit r.2 ("    sw " ++ pyReg r.1 ++ ", " ++ label))
          else if tipo == "flutuante" then
            (none, emit r.2 ("    s.s " ++ pyReg r.1 ++ ", " ++ label))
          else (none, r.2)
      | none => (none, g1)
  | .Atribuicao _ _ nome expressao =>
      let r := visitar g expressao
      (none, emit r.2 ("    sw " ++ pyReg r.1 ++ ", " ++ var_map_get r.2 nome))
  | .Literal _ _ valor tipo =>
      let rt := novo_temp g
      let reg := rt.1
      if tipo == "inteiro" then
        (some reg, emit rt.2 ("    li " ++ reg ++ ", " ++ valor.render))
      else if tipo == "flutuante" then
        (some reg, emit rt.2 ("    li.s " ++ reg ++ ", " ++ valor.render))
      else if tipo == "logico" then
        (some reg, emit rt.2 ("    li " ++ reg ++ ", " ++ (if valor.truthy then "1" else "0")))
      else if tipo == "cadeia" then
        (some reg, emit rt.2 ("    la " ++ reg ++ ", " ++ valor.render))
      else (some reg, rt.2)
  | .Identificador _ _ nome =>
      let rt := novo_temp g
      (some rt.1, emit rt.2 ("    lw " ++ rt.1 ++ ", " ++ var_map_get rt.2 nome))
  | .ExpressaoBinaria _ _ esquerda op direita =>
      let re := visitar g esquerda
      let rd := visitar re.2 direita
      let rt := novo_temp rd.2
      let reg_esq := pyReg re.1
      let reg_dir := pyReg rd.1
      let reg_res := rt.1
      let g3 := rt.2
      if op == "+" then
        (some reg_res, emit g3 ("    add " ++ reg_res ++ ", " ++ reg_esq ++ ", " ++ reg_dir))
      else if op == "-" then
        (some reg_res, emit g3 ("    sub " ++ reg_res ++ ", " ++ reg_esq ++ ", " ++ reg_dir))
      else if op == "*" then
        (some reg_res, emit g3 ("    mul " ++ reg_res ++ ", " ++ reg_esq ++ ", " ++ reg_dir))
      else if op == "/" then
        (some reg_res, emit g3 ("    div " ++ reg_res ++ ", " ++ reg_esq ++ ", " ++ reg_dir))
      else if op == ">" then
        (some reg_res, emit g3 ("    slt " ++ reg_res ++ ", " ++ reg_dir ++ ", " ++ reg_esq))
      else if op == "<" then
        (some reg_res, emit g3 ("    slt " ++ reg_res ++ ", " ++ reg_esq ++ ", " ++ reg_dir))
      else if op == ">=" then
        (some reg_res, emit
          (emit g3 ("    slt " ++ reg_res ++ ", " ++ reg_esq ++ ", " ++ reg_dir))
          ("    xori " ++ reg_res ++ ", " ++ reg_res ++ ", 1"))
      else if op == "<=" then
        (some reg_res, emit
          (emit g3 ("    slt " ++ reg_res ++ ", " ++ reg_dir ++ ", " ++ reg_esq))
          ("    xori " ++ reg_res ++ ", " ++ reg_res ++ ", 1"))
      else if op == "==" then
        (some reg_res, emit g3 ("    seq " ++ reg_res ++ ", " ++ reg_esq ++ ", " ++ reg_dir))
      else if op == "!=" then
        (some reg_res, emit g3 ("    sne " ++ reg_res ++ ", " ++ reg_esq ++ ", " ++ reg_dir))
      else if op == "e" then
        (some reg_res, emit g3 ("    and " ++ reg_res ++ ", " ++ reg_esq ++ ", " ++ reg_dir))
      else if op == "ou" then
        (some reg_res, emit g3 ("    or " ++ reg_res ++ ", " ++ reg_esq ++ ", " ++ reg_dir))
      else
        (some reg_res, g3)
  | .ExpressaoUnaria _ _ op expressao =>
      let re := visitar g expressao
      let rt := novo_temp re.2
      let reg_expr := pyReg re.1
      let reg_res := rt.1
      let g2 := rt.2
      if op == "!" then
        (some reg_res, emit (emit g2 ("    li " ++ reg_res ++ ", 1"))
          ("    xor " ++ reg_res ++ ", " ++ reg_expr ++ ", " ++ reg_res))
      else if op == "-" then
        (some reg_res, emit g2 ("    neg " ++ reg_res ++ ", " ++ reg_expr))
      else if op == "++" || op == "--" then
        let label := var_map_get g2 (nome_de expressao)
        let g3 := emit g2 ("    lw " ++ reg_res ++ ", " ++ label)
        let g4 :=
          if op == "++" then emit g3 ("    addi " ++ reg_res ++ ", " ++ reg_res ++ ", 1")
          else emit g3 ("    addi " ++ reg_res ++ ", " ++ reg_res ++ ", -1")
        (some reg_res, emit g4 ("    sw " ++ reg_res ++ ", " ++ label))
      else
        (some reg_res, g2)
  | .ComandoSe _ _ condicao bloco_verdadeiro bloco_falso =>
      let rc := visitar g condicao
      let lf := nova_label rc.2
      let le := nova_label lf.2
      let g1 := emit le.2 ("    beq " ++ pyReg rc.1 ++ ", $zero, " ++ lf.1)
      let g2 := visitar_list g1 bloco_verdadeiro
      let g3 := emit (emit g2 ("    j " ++ le.1)) (lf.1 ++ ":")
      let g4 :=
        match bloco_falso with
        | some bf => if bf.isEmpty then g3 else visitar_list g3 bf
        | none => g3
      (none, emit g4 (le.1 ++ ":"))
  | .ComandoEnquanto _ _ condicao bloco =>
      let li := nova_label g
      let le := nova_label li.2
      let g1 := emit le.2 (li.1 ++ ":")
      let rc := visitar g1 condicao
      let g2 := emit rc.2 ("    beq " ++ pyReg rc.1 ++ ", $zero, " ++ le.1)
      let g3 := visitar_list g2 bloco
      (none, emit (emit g3 ("    j " ++ li.1)) (le.1 ++ ":"))
  | .ComandoPara _ _ inicializacao condicao incremento bloco =>
      let l0 := nova_label g
      let l1 := nova_label l0.2
      let l2 := nova_label l1.2
      let g1 :=
        match inicializacao with
        | some ini => (visitar l2.2 ini).2
        | none => l2.2
      let g2 := emit g1 (l0.1 ++ ":")
      let g3 :=
        match condicao with
        | some c =>
            let rc := visitar g2 c
            emit rc.2 ("    beq " ++ pyReg rc.1 ++ ", $zero, " ++ l2.1)
        | none => g2
      let g4 := visitar_list g3 bloco
      let g5 := emit g4 (l1.1 ++ ":")
      let g6 :=
        match incremento with
        | some inc => (visitar g5 inc).2
        | none => g5
      (none, emit (emit g6 ("    j " ++ l0.1)) (l2.1 ++ ":"))
  | .ComandoEscreva _ _ expressao =>
      let r := visitar g expressao
      let g1 := emit (emit (emit r.2 ("    li $v0, 1"))
        ("    move $a0, " ++ pyReg r.1)) ("    syscall")
      (none, emit (emit (emit g1 ("    li $v0, 11")) ("    li $a0, 10")) ("    syscall"))
  | .ComandoLeia _ _ variavel =>
      let g1 := emit (emit g ("    li $v0, 5")) ("    syscall")
      (none, emit g1 ("    sw $v0, " ++ var_map_get g1 variavel))
  | .DeclaracaoFuncao _ _ _ nome parametros corpo =>
      let g1 := { g with func_map := (nome, nome) :: g.func_map }
      let g2 := emit (emit g1 ("")) (nome ++ ":")
      let g3 := salvar_params g2 (parametros.take 4) 0
      let g4 := visitar_list g3 corpo
      (none, emit g4 ("    jr $ra"))
  | .ChamadaFuncao _ _ nome argumentos =>
      let g1 := visitar_args g argumentos 0
      let g2 := emit g1 ("    jal " ++ func_map_get g1 nome)
      let rt := novo_temp g2
      (some rt.1, emit rt.2 ("    move " ++ rt.1 ++ ", $v0"))

/-- The `for cmd in ...: self.visitar(cmd)` loops over statement blocks. -/
def visitar_list (g : GeradorCodigoMIPS) : List NoAST → GeradorCodigoMIPS
  | [] => g
  | cmd :: cmds => visitar_list (visitar g cmd).2 cmds

/-- The call-site argument loop:
`for i, arg in enumerate(no.argumentos[:4])` — evaluate each argument and
move its register into the argument register numbered `i`.  The `[:4]` slice
is realized by the `i < 4` guard (the index starts at 0 and counts up), which
visits exactly the same first-at-most-four arguments. -/
def visitar_args (g : GeradorCodigoMIPS) : List NoAST → Nat → GeradorCodigoMIPS
  | [], _ => g
  | arg :: args, i =>
      if i < 4 then
        let r := visitar g arg
        visitar_args (emit r.2 ("    move $a" ++ toString i ++ ", " ++ pyReg r.1)) args (i + 1)
      else g

end

/-- `gerar`: run the traversal, then append the `.text` section header, the
`main:` entry label and the exit syscall sequence, and join the lines. -/
def gerar (g : GeradorCodigoMIPS) (ast : NoAST) : String × GeradorCodigoMIPS :=
  let g1 := (visitar g ast).2
  let g2 := emit (emit (emit (emit (emit g1 ("")) (".text")) ("main:"))
    ("    li $v0, 10")) ("    syscall")
  (String.intercalate "\n" g2.codigo, g2)

end GeradorCodigoMIPS

/-- `ErroSintatico` from `AnalisadorSLR.py`. -/
structure ErroSintatico where
  mensagem : String
  linha : Nat
  coluna : Nat
  token_encontrado : Option String
deriving Repr, DecidableEq

/-- A PLY token as `p_error` sees it: `value`, `lineno`, `lexpos`. -/
structure TokenPly where
  value : String
  lineno : Nat
  lexpos : Nat
deriving Repr, DecidableEq

namespace AnalisadorSintatico

/-- `p_error` from `AnalisadorSLR.py`: called by the engine with the
offending token, or with nothing at unexpected end of input; records one
`ErroSintatico` either way and never raises. -/
def p_error (erros : List ErroSintatico) (p : Option TokenPly) : List ErroSintatico :=
  match p with
  | some t => erros ++ [⟨"Erro de sintaxe", t.lineno, t.lexpos, some t.value⟩]
  | none => erros ++ [⟨"Fim de arquivo inesperado", 0, 0, none⟩]

/-- The token-consuming loop of the engine, calling `p_error` on each
unexpected token. -/
def percorre (inesperado : TokenPly → Bool) (erros : List ErroSintatico) :
    List TokenPly → List ErroSintatico
  | [] => erros
  | t :: ts =>
      percorre inesperado (if inesperado t then p_error erros (some t) else erros) ts

/-- Modelled from the spec: the LALR parse engine (`ply.yacc`) invoked by
`AnalisadorSintatico.analisar` is a third-party library and is not among the
repository sources; only the grammar actions and the `p_error` callback are.
Following the spec's error policy, the engine consumes the token stream in
one pass, calls `p_error` (embedded from the source) once per unexpected
token, calls it once more with no token when the input ends unexpectedly,
resynchronizes, and returns the best-effort AST.  The engine's own
classification of tokens is abstracted as the predicate `inesperado`, the
premature-end condition as the flag `incompleto`, and the best-effort tree it
builds as the statement list `comandos`; totality of the definition models
"must not raise". -/
def analisar (inesperado : TokenPly → Bool) (incompleto : Bool)
    (comandos : List NoAST) (tokens : List TokenPly) : NoAST × List ErroSintatico :=
  let erros := percorre inesperado [] tokens
  let erros := if incompleto then p_error erros none else erros
  (NoAST.Programa 1 1 comandos, erros)

end AnalisadorSintatico

namespace AnalisadorSemantico

/-- Relation: the error list of `b` extends that of `a` (errors only grow). -/
def ErrosEstendem (a b : AnalisadorSemantico) : Prop :=
  ∃ l, b.erros = a.erros ++ l

theorem ErrosEstendem.refl (a : AnalisadorSemantico) : ErrosEstendem a a :=
  ⟨[], by simp⟩

theorem ErrosEstendem.trans {a b c : AnalisadorSemantico}
    (h1 : ErrosEstendem a b) (h2 : ErrosEstendem b c) : ErrosEstendem a c := by
  obtain ⟨l1, e1⟩ := h1
  obtain ⟨l2, e2⟩ := h2
  exact ⟨l1 ++ l2, by rw [e2, e1, List.append_assoc]⟩

theorem ErrosEstendem.of_eq {a b : AnalisadorSemantico} (h : b.erros = a.erros) :
    ErrosEstendem a b := ⟨[], by simp [h]⟩

theorem estende_addErro (a : AnalisadorSemantico) (m : String) (l c : Nat) :
    ErrosEstendem a (addErro a m l c) := ⟨[⟨m, l, c⟩], rfl⟩

theorem estende_entrar (a : AnalisadorSemantico) : ErrosEstendem a (entrar_escopo a) :=
  .of_eq rfl

theorem estende_sair (a : AnalisadorSemantico) : ErrosEstendem a (sair_escopo a) := by
  unfold sair_escopo; split <;> exact .of_eq rfl

theorem estende_declarar_variavel (a : AnalisadorSemantico) (n : String) (t : Tipo)
    (b : Bool) (l c : Nat) : ErrosEstendem a (declarar_variavel a n t b l c) := by
  unfold declarar_variavel
  split
  · exact .refl a
  · split
    · exact estende_addErro ..
    · exact .of_eq rfl

theorem estende_buscar_variavel (a : AnalisadorSemantico) (n : String) (l c : Nat) :
    ErrosEstendem a (buscar_variavel a n l c).2 := by
  unfold buscar_variavel
  split
  · exact .refl a
  · exact estende_addErro ..

theorem estende_buscar_variavel_eq {a a1 : AnalisadorSemantico} {n : String}
    {l c : Nat} {r : Option (Tipo × Bool)} (h : buscar_variavel a n l c = (r, a1)) :
    ErrosEstendem a a1 := by
  have t := estende_buscar_variavel a n l c
  rw [h] at t
  exact t

theorem estende_declarar_funcao (a : AnalisadorSemantico) (n : String) (t : Tipo)
    (ps : List (String × Tipo)) (l c : Nat) :
    ErrosEstendem a (declarar_funcao a n t ps l c) := by
  unfold declarar_funcao
  split
  · exact estende_addErro ..
  · exact .of_eq rfl

theorem estende_buscar_funcao (a : AnalisadorSemantico) (n : String) (l c : Nat) :
    ErrosEstendem a (buscar_funcao a n l c).2 := by
  unfold buscar_funcao
  split
  · exact .refl a
  · exact estende_addErro ..

theorem estende_buscar_funcao_eq {a a1 : AnalisadorSemantico} {n : String}
    {l c : Nat} {r : Option (Tipo × List Tipo)} (h : buscar_funcao a n l c = (r, a1)) :
    ErrosEstendem a a1 := by
  have t := estende_buscar_funcao a n l c
  rw [h] at t
  exact t

theorem estende_ite {c : Prop} [Decidable c] {a b : AnalisadorSemantico} {m : String}
    {l co : Nat} (h : ErrosEstendem a b) :
    ErrosEstendem a (if c then b else addErro b m l co) := by
  split
  · exact h
  · exact h.trans (estende_addErro ..)

/-- On both branches of `buscar_variavel`, the second component of
`inferir_tipo` on an identifier is the state `buscar_variavel` returns. -/
theorem ident_snd (a : AnalisadorSemantico) (l c : Nat) (n : String) :
    (inferir_tipo a (.Identificador l c n)).2 = (buscar_variavel a n l c).2 := by
  simp only [inferir_tipo]
  rcases h : buscar_variavel a n l c with ⟨info, a1⟩
  rcases info <;> simp

theorem estende_inferir_both :
    (∀ (a : AnalisadorSemantico) (no : NoAST), ErrosEstendem a (inferir_tipo a no).2) ∧
    (∀ (a : AnalisadorSemantico) (nome : String) (linha coluna : Nat) (args : List NoAST)
      (tps : List Tipo) (i : Nat),
      ErrosEstendem a (inferir_args a nome linha coluna args tps i)) := by
  apply AnalisadorSemantico.inferir_tipo.mutual_induct <;> intros
  all_goals first
  | (refine ⟨[], ?_⟩; simp [inferir_tipo, inferir_args]; done)
  | (rw [ident_snd]; apply estende_buscar_variavel)
  | -- binary and unary operator cases: compose the operand extensions and
    -- close each branch leaf
    (rename_i ih1 ih2
     simp only [inferir_tipo]
     repeat' split
     all_goals first
     | exact ih1.trans ih2
     | exact (ih1.trans ih2).trans (estende_addErro ..)
     | exact ih2.trans (estende_addErro ..)
     | exact ih2)
  | -- function-call cases, function found (with and without the loop IH)
    (rename_i heq cond ih
     have t := estende_buscar_funcao_eq heq
     simp only [inferir_tipo, heq]
     repeat' split
     all_goals first
     | exact t.trans (estende_addErro ..)
     | exact t.trans ih)
  | (rename_i heq cond
     have t := estende_buscar_funcao_eq heq
     simp only [inferir_tipo, heq]
     repeat' split
     all_goals first
     | exact t.trans (estende_addErro ..))
  | -- function-call case, function missing
    (rename_i a1 heq
     have t := estende_buscar_funcao_eq heq
     simp only [inferir_tipo, heq]
     exact t)
  | -- argument-loop cons case
    (rename_i ih1 ih2
     simp only [inferir_args]
     exact ErrosEstendem.trans (estende_ite ih1) ih2)

theorem estende_ite2 {c : Prop} [Decidable c] (b : AnalisadorSemantico) (m : String)
    (l co : Nat) : ErrosEstendem b (if c then addErro b m l co else b) := by
  split
  · exact estende_addErro ..
  · exact .refl b

theorem estende_declarar_params (ps : List (String × Tipo)) :
    ∀ (a : AnalisadorSemantico) (l c : Nat), ErrosEstendem a (declarar_params a l c ps) := by
  induction ps with
  | nil => exact fun a l c => .refl a
  | cons p resto ih =>
      intro a l c
      exact (estende_declarar_variavel ..).trans (ih _ l c)

theorem estende_inferir_tipo (a : AnalisadorSemantico) (no : NoAST) :
    ErrosEstendem a (inferir_tipo a no).2 := estende_inferir_both.1 a no

/-- Error-extension for a variable declaration statement, all branches. -/
theorem estende_visitar_declvar (a : AnalisadorSemantico) (l c : Nat) (tipo nome : String)
    (arr : Option Nat) (vi : Option NoAST) :
    ErrosEstendem a (visitar a (.DeclaracaoVariavel l c tipo nome arr vi)) := by
  rcases vi with _ | v
  · simp only [visitar]
    exact estende_declarar_variavel ..
  · simp only [visitar]
    have t := estende_declarar_variavel a nome tipo arr.isSome l c
    rcases h2 : (inferir_tipo (declarar_variavel a nome tipo arr.isSome l c) v).1
      with _ | et
    · exact t.trans (estende_inferir_tipo ..)
    · dsimp only
      split
      · exact (t.trans (estende_inferir_tipo ..)).trans (estende_addErro ..)
      · exact t.trans (estende_inferir_tipo ..)

/-- Error-extension for an assignment statement, all branches. -/
theorem estende_visitar_atrib (a : AnalisadorSemantico) (l c : Nat) (nome : String)
    (e : NoAST) : ErrosEstendem a (visitar a (.Atribuicao l c nome e)) := by
  simp only [visitar]
  split
  · rename_i var_info a1 heq
    have t := estende_buscar_variavel_eq heq
    split
    · rename_i expr_tipo heq2
      split
      · exact (t.trans (estende_inferir_tipo ..)).trans (estende_addErro ..)
      · exact t.trans (estende_inferir_tipo ..)
    · exact t.trans (estende_inferir_tipo ..)
  · rename_i a1 heq
    exact estende_buscar_variavel_eq heq

theorem estende_visitar_all :
    (∀ (a : AnalisadorSemantico) (no : NoAST), ErrosEstendem a (visitar a no)) ∧
    (∀ (a : AnalisadorSemantico) (o : Option NoAST), ErrosEstendem a (visitar_opt a o)) ∧
    (∀ (a : AnalisadorSemantico) (l : List NoAST), ErrosEstendem a (visitar_list a l)) := by
  apply AnalisadorSemantico.visitar.mutual_induct <;> intros
  all_goals first
  | (refine ⟨[], ?_⟩; simp [visitar, visitar_list, visitar_opt]; done)
  | -- Programa and the some-branch of the optional visit: directly the IH
    (rename_i ih
     simp only [visitar, visitar_list, visitar_opt]
     exact ih)
  | -- statement-list cons: compose head and tail extensions
    (rename_i ih1 ih2
     simp only [visitar_list]
     exact ih1.trans ih2)
  | -- if with no else, and while: condition inference and check, block in
    -- its own scope
    (rename_i ih
     simp only [visitar]
     exact ((((estende_inferir_tipo ..).trans (estende_ite2 ..)).trans
       (estende_entrar _)).trans ih).trans (estende_sair _))
  | -- if with an empty else block: the else side is skipped
    (rename_i hemp ih
     simp only [visitar]
     split
     · exact ((((estende_inferir_tipo ..).trans (estende_ite2 ..)).trans
         (estende_entrar _)).trans ih).trans (estende_sair _)
     · contradiction)
  | -- if with a nonempty else block: both blocks in their own scopes
    (rename_i hemp ih2 ih1
     simp only [visitar]
     split
     · contradiction
     · exact (((((((estende_inferir_tipo ..).trans (estende_ite2 ..)).trans
         (estende_entrar _)).trans ih2).trans (estende_sair _)).trans
         (estende_entrar _)).trans ih1).trans (estende_sair _))
  | -- function declaration: table entry, new scope, parameters, body, close scope
    (rename_i ih
     simp only [visitar]
     exact ((((estende_declarar_funcao ..).trans (estende_entrar _)).trans
       (estende_declarar_params ..)).trans ih).trans (estende_sair _))
  | -- for: new scope, optional init, optional condition, optional increment, block
    (rename_i i1 cond i2 bl a1 a2 a3 a4 ih3 ih2 ih1
     simp only [visitar]
     rcases cond with _ | c
     · exact (((estende_entrar _).trans ih3).trans ih2).trans
         (ih1.trans (estende_sair _))
     · exact ((((estende_entrar _).trans ih3).trans
         ((estende_inferir_tipo ..).trans (estende_ite2 ..))).trans ih2).trans
         (ih1.trans (estende_sair _)))
  | apply estende_visitar_declvar
  | apply estende_visitar_atrib
  | -- expression statements, write, read: the primitive extensions directly
    (simp only [visitar]
     first
     | exact estende_inferir_tipo ..
     | exact estende_buscar_variavel ..)

end AnalisadorSemantico

namespace AnalisadorSemantico

/-- Calling an undeclared function: one error is recorded by `buscar_funcao`,
the type is unknown, and the argument list is never touched. -/
theorem inferir_chamada_nao_declarada (a : AnalisadorSemantico) (l c : Nat)
    (nome : String) (args : List NoAST) (h : a.funcoes.lookup nome = none) :
    inferir_tipo a (.ChamadaFuncao l c nome args) =
      (none, addErro a ("Função \x27" ++ nome ++ "\x27 não declarada") l c) := by
  simp [inferir_tipo, buscar_funcao, h]

/-- Referencing an undeclared variable: one error, unknown type. -/
theorem inferir_ident_nao_declarado (a : AnalisadorSemantico) (l c : Nat)
    (nome : String) (h : buscar_frames a.tabela_simbolos nome = none) :
    inferir_tipo a (.Identificador l c nome) =
      (none, addErro a ("Variável \x27" ++ nome ++ "\x27 não declarada") l c) := by
  simp [inferir_tipo, buscar_variavel, h]

/-- Calling a declared function with the wrong number of arguments: exactly
the arity error is recorded, the type is unknown, and the argument list is
never visited. -/
theorem inferir_chamada_aridade (a a1 : AnalisadorSemantico) (l c : Nat)
    (nome : String) (args : List NoAST) (ret : Tipo) (ps : List Tipo)
    (h : buscar_funcao a nome l c = (some (ret, ps), a1))
    (hlen : args.length ≠ ps.length) :
    inferir_tipo a (.ChamadaFuncao l c nome args) =
      (none, addErro a1 ("Função \x27" ++ nome ++ "\x27 espera " ++
        toString ps.length ++ " argumentos, mas recebeu " ++
        toString args.length) l c) := by
  simp [inferir_tipo, h, hlen]

/-- Calling a declared function with the right number of arguments: the
inferred type is the declared return type, whatever the argument checks
record. -/
theorem inferir_chamada_tipo_retorno (a a1 : AnalisadorSemantico) (l c : Nat)
    (nome : String) (args : List NoAST) (ret : Tipo) (ps : List Tipo)
    (h : buscar_funcao a nome l c = (some (ret, ps), a1))
    (hlen : args.length = ps.length) :
    (inferir_tipo a (.ChamadaFuncao l c nome args)).1 = some ret := by
  simp [inferir_tipo, h, hlen]

end AnalisadorSemantico

/-- C1: for a binary expression whose operator is one of `+ - * /`, when both
operand types are numeric (`inteiro` or `flutuante`) the inferred type is
`flutuante` if either operand type is `flutuante` and `inteiro` otherwise,
with no error; when either operand type is non-numeric (including unknown)
one semantic error naming the operator is recorded and the inferred type is
unknown (`none`).  The operand types are the recursively inferred ones
(hypotheses `h1`, `h2`). -/
theorem C1_tipo_aritmetica (a a1 a2 : AnalisadorSemantico) (l c : Nat)
    (esq dir : NoAST) (op : String) (te td : Option Tipo)
    (hop : op = "+" ∨ op = "-" ∨ op = "*" ∨ op = "/")
    (h1 : AnalisadorSemantico.inferir_tipo a esq = (te, a1))
    (h2 : AnalisadorSemantico.inferir_tipo a1 dir = (td, a2)) :
    AnalisadorSemantico.inferir_tipo a (.ExpressaoBinaria l c esq op dir) =
      if (te == some "inteiro" || te == some "flutuante") &&
          (td == some "inteiro" || td == some "flutuante") then
        (some (if te == some "flutuante" || td == some "flutuante" then
          "flutuante" else "inteiro"), a2)
      else
        (none, a2.addErro ("Operador \x27" ++ op ++ "\x27 requer operandos numéricos")
          l c) := by
  rcases hop with h | h | h | h <;> subst h <;>
    simp [AnalisadorSemantico.inferir_tipo, h1, h2] <;> split_ifs <;> rfl

/-- Witness for C1 at concrete inputs: `1 + 2.5` infers `flutuante` with no
error from the empty analyzer, and `"oi" + 1` records the operator error. -/
theorem C1_tipo_aritmetica_witness :
    AnalisadorSemantico.inferir_tipo .init
      (.ExpressaoBinaria 1 1 (.Literal 1 1 (.vint 1) "inteiro") "+"
        (.Literal 1 1 (.vfloat "2.5") "flutuante")) = (some "flutuante", .init) ∧
    AnalisadorSemantico.inferir_tipo .init
      (.ExpressaoBinaria 1 2 (.Literal 1 2 (.vstr "oi") "cadeia") "*"
        (.Literal 1 2 (.vint 1) "inteiro")) =
      (none, AnalisadorSemantico.addErro .init
        "Operador \x27*\x27 requer operandos numéricos" 1 2) := by
  constructor
  · have h := C1_tipo_aritmetica .init .init .init 1 1
      (.Literal 1 1 (.vint 1) "inteiro") (.Literal 1 1 (.vfloat "2.5") "flutuante")
      "+" (some "inteiro") (some "flutuante") (Or.inl rfl) rfl rfl
    simpa using h
  · have h := C1_tipo_aritmetica .init .init .init 1 2
      (.Literal 1 2 (.vstr "oi") "cadeia") (.Literal 1 2 (.vint 1) "inteiro")
      "*" (some "cadeia") (some "inteiro") (Or.inr (Or.inr (Or.inl rfl))) rfl rfl
    simpa using h

/-- C3: a declaration records an error exactly when the name is already in
the innermost scope frame (the outer frames `resto` play no role, so
shadowing an outer scope is silent); visiting an if statement whose two
sibling blocks each declare the same name leaves the analyzer state exactly
as it was — no redeclaration error, and the name is popped with its block's
frame — so looking the name up afterwards fails with an undeclared-variable
error whenever no surrounding frame declares it. -/
theorem C3_escopo (a : AnalisadorSemantico) (nome : String) (tipo : Tipo)
    (arr : Bool) (l c : Nat) (escopo : List (String × (Tipo × Bool)))
    (resto : List (List (String × (Tipo × Bool))))
    (htab : a.tabela_simbolos = escopo :: resto) :
    (((escopo.lookup nome).isSome →
      AnalisadorSemantico.declarar_variavel a nome tipo arr l c =
        a.addErro ("Variável \x27" ++ nome ++ "\x27 já declarada neste escopo") l c)
     ∧ (escopo.lookup nome = none →
      AnalisadorSemantico.declarar_variavel a nome tipo arr l c =
        { a with tabela_simbolos := ((nome, (tipo, arr)) :: escopo) :: resto }))
    ∧ AnalisadorSemantico.visitar a
        (.ComandoSe l c (.Literal l c (.vbool true) "logico")
          [.DeclaracaoVariavel l c tipo nome none none]
          (some [.DeclaracaoVariavel l c tipo nome none none])) = a
    ∧ (AnalisadorSemantico.buscar_frames (escopo :: resto) nome = none →
      AnalisadorSemantico.buscar_variavel
        (AnalisadorSemantico.visitar a
          (.ComandoSe l c (.Literal l c (.vbool true) "logico")
            [.DeclaracaoVariavel l c tipo nome none none]
            (some [.DeclaracaoVariavel l c tipo nome none none]))) nome l c =
        (none, a.addErro ("Variável \x27" ++ nome ++ "\x27 não declarada") l c)) := by
  obtain ⟨er, tab, fn⟩ := a
  simp only at htab
  subst htab
  have hse : AnalisadorSemantico.visitar ⟨er, escopo :: resto, fn⟩
      (.ComandoSe l c (.Literal l c (.vbool true) "logico")
        [.DeclaracaoVariavel l c tipo nome none none]
        (some [.DeclaracaoVariavel l c tipo nome none none])) =
      ⟨er, escopo :: resto, fn⟩ := by
    simp [AnalisadorSemantico.visitar, AnalisadorSemantico.visitar_list,
      AnalisadorSemantico.inferir_tipo, AnalisadorSemantico.entrar_escopo,
      AnalisadorSemantico.sair_escopo, AnalisadorSemantico.declarar_variavel]
  refine ⟨⟨?_, ?_⟩, hse, ?_⟩
  · intro h
    simp [AnalisadorSemantico.declarar_variavel, h]
  · intro h
    simp [AnalisadorSemantico.declarar_variavel, h]
  · intro h
    rw [hse]
    simp [AnalisadorSemantico.buscar_variavel, h]

/-- Witness for C3 at concrete inputs: from the fresh analyzer, the sibling
program leaves the state untouched and the inner variable is unresolvable
afterwards; declaring into the empty global frame writes the entry. -/
theorem C3_escopo_witness :
    AnalisadorSemantico.declarar_variavel .init "n" "inteiro" false 1 1 =
      { AnalisadorSemantico.init with tabela_simbolos := [[("n", ("inteiro", false))]] } ∧
    AnalisadorSemantico.visitar .init
      (.ComandoSe 1 1 (.Literal 1 1 (.vbool true) "logico")
        [.DeclaracaoVariavel 1 1 "inteiro" "n" none none]
        (some [.DeclaracaoVariavel 1 1 "inteiro" "n" none none])) = .init ∧
    AnalisadorSemantico.buscar_variavel
      (AnalisadorSemantico.visitar .init
        (.ComandoSe 1 1 (.Literal 1 1 (.vbool true) "logico")
          [.DeclaracaoVariavel 1 1 "inteiro" "n" none none]
          (some [.DeclaracaoVariavel 1 1 "inteiro" "n" none none]))) "n" 1 1 =
      (none, AnalisadorSemantico.addErro .init "Variável \x27n\x27 não declarada" 1 1) := by
  have h := C3_escopo .init "n" "inteiro" false 1 1 [] [] rfl
  exact ⟨h.1.2 rfl, h.2.1, h.2.2 rfl⟩

/-- C4 counterexample: the expression `x + 1` with `x` undeclared makes the
analyzer record TWO errors from a fresh state — the undeclared-variable error
for the reference and then a cascading "requires numeric operands" error for
the enclosing `+`, whose operand type is unknown — refuting the claim that
no further type error is recorded for the enclosing expression. -/
theorem C4_contraexemplo :
    (AnalisadorSemantico.inferir_tipo .init
      (.ExpressaoBinaria 1 1 (.Identificador 1 1 "x") "+"
        (.Literal 1 1 (.vint 1) "inteiro"))).2.erros =
      [⟨"Variável \x27x\x27 não declarada", 1, 1⟩,
       ⟨"Operador \x27+\x27 requer operandos numéricos", 1, 1⟩] := by
  rfl

/-- C4 as amended: an undeclared variable reference or undeclared function
call records exactly one error and yields the unknown type; in particular a
call to an undeclared function records exactly the one "function not
declared" error, never visits the arguments, and raises no arity error.
However, the unknown type does NOT suppress the enclosing operator's own
check: a binary arithmetic expression over an unknown operand records one
further operator-type error (the cascade shown at the concrete input). -/
theorem C4_emendada :
    (∀ (a : AnalisadorSemantico) (l c : Nat) (nome : String) (args : List NoAST),
      a.funcoes.lookup nome = none →
      AnalisadorSemantico.inferir_tipo a (.ChamadaFuncao l c nome args) =
        (none, a.addErro ("Função \x27" ++ nome ++ "\x27 não declarada") l c))
    ∧ (∀ (a : AnalisadorSemantico) (l c : Nat) (nome : String),
      AnalisadorSemantico.buscar_frames a.tabela_simbolos nome = none →
      AnalisadorSemantico.inferir_tipo a (.Identificador l c nome) =
        (none, a.addErro ("Variável \x27" ++ nome ++ "\x27 não declarada") l c))
    ∧ (AnalisadorSemantico.inferir_tipo .init
        (.ExpressaoBinaria 2 2 (.Identificador 2 2 "y") "-"
          (.Literal 2 2 (.vint 1) "inteiro"))).2.erros.length = 2 := by
  refine ⟨?_, ?_, ?_⟩
  · intro a l c nome args h
    exact AnalisadorSemantico.inferir_chamada_nao_declarada a l c nome args h
  · intro a l c nome h
    exact AnalisadorSemantico.inferir_ident_nao_declarado a l c nome h
  · rfl

/-- Witness for C4 at concrete inputs: `foo(1, 2)` with `foo` undeclared
yields exactly one error (no arity error), and an undeclared `x` yields its
one error with unknown type. -/
theorem C4_emendada_witness :
    AnalisadorSemantico.inferir_tipo .init
      (.ChamadaFuncao 1 2 "foo"
        [.Literal 1 2 (.vint 1) "inteiro", .Literal 1 2 (.vint 2) "inteiro"]) =
      (none, AnalisadorSemantico.addErro .init "Função \x27foo\x27 não declarada" 1 2) ∧
    AnalisadorSemantico.inferir_tipo .init (.Identificador 3 4 "x") =
      (none, AnalisadorSemantico.addErro .init "Variável \x27x\x27 não declarada" 3 4) := by
  exact ⟨C4_emendada.1 .init 1 2 "foo" _ rfl, C4_emendada.2.1 .init 3 4 "x" rfl⟩

/-- C6 counterexample: with `f : inteiro → flutuante` declared, the call
`f("oi")` fails its argument-type check — the mismatch error IS recorded —
yet the call's inferred type is `some "flutuante"` (the declared return
type), not unknown, refuting "when a check fails the call's inferred type is
unknown". -/
theorem C6_contraexemplo :
    AnalisadorSemantico.inferir_tipo ⟨[], [[]], [("f", ("flutuante", ["inteiro"]))]⟩
      (.ChamadaFuncao 2 3 "f" [.Literal 2 3 (.vstr "oi") "cadeia"]) =
      (some "flutuante",
        ⟨[⟨"Argumento 1 de \x27f\x27 deve ser \x27inteiro\x27, mas é \x27cadeia\x27", 2, 3⟩],
          [[]], [("f", ("flutuante", ["inteiro"]))]⟩) := by
  rfl

/-- C6 as amended: for a call to a declared function, an argument count
different from the declared parameter count records one arity error and
makes the inferred type unknown; with a matching count, each mismatching
argument records an error but the call's inferred type is the declared
return type regardless of those argument errors. -/
theorem C6_emendada (a a1 : AnalisadorSemantico) (l c : Nat) (nome : String)
    (args : List NoAST) (ret : Tipo) (ps : List Tipo)
    (h : AnalisadorSemantico.buscar_funcao a nome l c = (some (ret, ps), a1)) :
    (args.length ≠ ps.length →
      AnalisadorSemantico.inferir_tipo a (.ChamadaFuncao l c nome args) =
        (none, a1.addErro ("Função \x27" ++ nome ++ "\x27 espera " ++
          toString ps.length ++ " argumentos, mas recebeu " ++
          toString args.length) l c))
    ∧ (args.length = ps.length →
      (AnalisadorSemantico.inferir_tipo a (.ChamadaFuncao l c nome args)).1 =
        some ret) := by
  exact ⟨AnalisadorSemantico.inferir_chamada_aridade a a1 l c nome args ret ps h,
    AnalisadorSemantico.inferir_chamada_tipo_retorno a a1 l c nome args ret ps h⟩

/-- Witness for C6 at concrete inputs: with `g : (inteiro, cadeia) → inteiro`
declared, `g(5)` yields exactly the arity error with unknown type, while
`g(5, 6)` — whose second argument mismatches — still infers `inteiro`. -/
theorem C6_emendada_witness :
    AnalisadorSemantico.inferir_tipo ⟨[], [[]], [("g", ("inteiro", ["inteiro", "cadeia"]))]⟩
      (.ChamadaFuncao 1 1 "g" [.Literal 1 1 (.vint 5) "inteiro"]) =
      (none, AnalisadorSemantico.addErro
        ⟨[], [[]], [("g", ("inteiro", ["inteiro", "cadeia"]))]⟩
        "Função \x27g\x27 espera 2 argumentos, mas recebeu 1" 1 1) ∧
    (AnalisadorSemantico.inferir_tipo ⟨[], [[]], [("g", ("inteiro", ["inteiro", "cadeia"]))]⟩
      (.ChamadaFuncao 1 1 "g"
        [.Literal 1 1 (.vint 5) "inteiro", .Literal 1 1 (.vint 6) "inteiro"])).1 =
      some "inteiro" := by
  constructor
  · have h := (C6_emendada ⟨[], [[]], [("g", ("inteiro", ["inteiro", "cadeia"]))]⟩
      ⟨[], [[]], [("g", ("inteiro", ["inteiro", "cadeia"]))]⟩ 1 1 "g"
      [.Literal 1 1 (.vint 5) "inteiro"] "inteiro" ["inteiro", "cadeia"] rfl).1
      (by decide)
    simpa using h
  · exact (C6_emendada ⟨[], [[]], [("g", ("inteiro", ["inteiro", "cadeia"]))]⟩
      ⟨[], [[]], [("g", ("inteiro", ["inteiro", "cadeia"]))]⟩ 1 1 "g"
      [.Literal 1 1 (.vint 5) "inteiro", .Literal 1 1 (.vint 6) "inteiro"]
      "inteiro" ["inteiro", "cadeia"] rfl).2 (by decide)

/-- C7 counterexample: running `analisar` twice on the same analyzer instance
over the same one-declaration program does not yield the same error list:
the first run records nothing, the second records an
already-declared-in-this-scope error, because the global scope frame kept the
entry from the first run. -/
theorem C7_contraexemplo :
    (AnalisadorSemantico.analisar .init
      (.Programa 1 1 [.DeclaracaoVariavel 1 1 "inteiro" "x" none none])).erros = [] ∧
    (AnalisadorSemantico.analisar
      (AnalisadorSemantico.analisar .init
        (.Programa 1 1 [.DeclaracaoVariavel 1 1 "inteiro" "x" none none]))
      (.Programa 1 1 [.DeclaracaoVariavel 1 1 "inteiro" "x" none none])).erros =
      [⟨"Variável \x27x\x27 já declarada neste escopo", 1, 1⟩] := by
  exact ⟨rfl, rfl⟩

/-- C7 as amended: a run of `analisar` only appends to the accumulated error
list, so the first run's list is always a prefix of the state after the
second run; but re-running on the same instance can append fresh errors —
at the concrete one-declaration program the second run adds a redeclaration
error — because the global scope frame and the function table persist across
runs.  Two runs from a fresh instance each are equal by construction (the
embedding is a pure function of state and AST). -/
theorem C7_emendada :
    (∀ (a : AnalisadorSemantico) (ast : NoAST),
      ∃ l, (AnalisadorSemantico.analisar a ast).erros = a.erros ++ l)
    ∧ (AnalisadorSemantico.analisar
        (AnalisadorSemantico.analisar .init
          (.Programa 1 1 [.DeclaracaoVariavel 1 1 "inteiro" "x" none none]))
        (.Programa 1 1 [.DeclaracaoVariavel 1 1 "inteiro" "x" none none])).erros =
      (AnalisadorSemantico.analisar .init
        (.Programa 1 1 [.DeclaracaoVariavel 1 1 "inteiro" "x" none none])).erros ++
      [⟨"Variável \x27x\x27 já declarada neste escopo", 1, 1⟩] := by
  exact ⟨fun a ast => AnalisadorSemantico.estende_visitar_all.1 a ast, rfl⟩

/-- C10 counterexample: with `f` declared taking no parameters, the call
`f(x)` — whose argument is an undeclared variable — records only the arity
error: the argument is never visited, so no undeclared-variable error
appears, refuting "for a declared function every argument is type-checked". -/
theorem C10_contraexemplo :
    (AnalisadorSemantico.inferir_tipo ⟨[], [[]], [("f", ("inteiro", []))]⟩
      (.ChamadaFuncao 1 1 "f" [.Identificador 1 1 "x"])).2.erros =
      [⟨"Função \x27f\x27 espera 0 argumentos, mas recebeu 1", 1, 1⟩] := by
  rfl

/-- C10 as amended: when the called function is undeclared the arguments are
not visited at all (the resulting state carries exactly the one
function-not-declared error, independent of the argument list); when it is
declared but the argument count mismatches, the arguments are likewise not
visited (exactly the arity error); arguments are type-checked only when the
count matches — at the concrete input `h(x)` with `h : inteiro → inteiro`
and `x` undeclared, both the undeclared-variable error from visiting the
argument and the argument-type error are recorded. -/
theorem C10_emendada :
    (∀ (a : AnalisadorSemantico) (l c : Nat) (nome : String) (args : List NoAST),
      a.funcoes.lookup nome = none →
      AnalisadorSemantico.inferir_tipo a (.ChamadaFuncao l c nome args) =
        (none, a.addErro ("Função \x27" ++ nome ++ "\x27 não declarada") l c))
    ∧ (∀ (a a1 : AnalisadorSemantico) (l c : Nat) (nome : String)
        (args : List NoAST) (ret : Tipo) (ps : List Tipo),
      AnalisadorSemantico.buscar_funcao a nome l c = (some (ret, ps), a1) →
      args.length ≠ ps.length →
      AnalisadorSemantico.inferir_tipo a (.ChamadaFuncao l c nome args) =
        (none, a1.addErro ("Função \x27" ++ nome ++ "\x27 espera " ++
          toString ps.length ++ " argumentos, mas recebeu " ++
          toString args.length) l c))
    ∧ (AnalisadorSemantico.inferir_tipo ⟨[], [[]], [("h", ("inteiro", ["inteiro"]))]⟩
        (.ChamadaFuncao 1 1 "h" [.Identificador 1 1 "x"])).2.erros =
      [⟨"Variável \x27x\x27 não declarada", 1, 1⟩,
       ⟨"Argumento 1 de \x27h\x27 deve ser \x27inteiro\x27, mas é \x27None\x27", 1, 1⟩] := by
  refine ⟨?_, ?_, rfl⟩
  · intro a l c nome args h
    exact AnalisadorSemantico.inferir_chamada_nao_declarada a l c nome args h
  · intro a a1 l c nome args ret ps h hlen
    exact AnalisadorSemantico.inferir_chamada_aridade a a1 l c nome args ret ps h hlen

/-- Witness for C10 at concrete inputs: `foo(x)` with `foo` undeclared and
`x` undeclared records only the function error — nothing from the argument —
and `k(x, y)` with `k : inteiro → inteiro` records only the arity error. -/
theorem C10_emendada_witness :
    AnalisadorSemantico.inferir_tipo .init
      (.ChamadaFuncao 5 6 "foo" [.Identificador 5 6 "x"]) =
      (none, AnalisadorSemantico.addErro .init "Função \x27foo\x27 não declarada" 5 6) ∧
    AnalisadorSemantico.inferir_tipo ⟨[], [[]], [("k", ("inteiro", ["inteiro"]))]⟩
      (.ChamadaFuncao 7 8 "k" [.Identificador 7 8 "x", .Identificador 7 8 "y"]) =
      (none, AnalisadorSemantico.addErro ⟨[], [[]], [("k", ("inteiro", ["inteiro"]))]⟩
        "Função \x27k\x27 espera 1 argumentos, mas recebeu 2" 7 8) := by
  constructor
  · exact C10_emendada.1 .init 5 6 "foo" [.Identificador 5 6 "x"] rfl
  · have h := C10_emendada.2.1 ⟨[], [[]], [("k", ("inteiro", ["inteiro"]))]⟩
      ⟨[], [[]], [("k", ("inteiro", ["inteiro"]))]⟩ 7 8 "k"
      [.Identificador 7 8 "x", .Identificador 7 8 "y"] "inteiro" ["inteiro"]
      rfl (by decide)
    simpa using h

/-- Character-level prefix test (`startswith`), used to classify emitted
instruction lines when counting branches, jumps and labels; stated over the
underlying character list so that it evaluates inside the kernel. -/
def comeca_com (p s : String) : Bool := s.data.take p.data.length == p.data

/-- Character-level test that a line ends in a colon (a label line). -/
def termina_rotulo (s : String) : Bool :=
  s.data.getLast? == some (Char.ofNat 58)

/-- C9: the generator allocates at most one static storage slot per distinct
name, labelled with the name itself: when the name is already in `var_map`
the allocation returns with the state completely unchanged — no directive is
emitted and the new declaration's type and array flag are ignored, so
same-named variables from different scopes share the first slot; on first
sight exactly one directive is emitted and the map gains the entry
`(nome, nome)`. -/
theorem C9_alocacao (g : GeradorCodigoMIPS) (nome tipo : String) (arr : Bool) :
    ((g.var_map.lookup nome).isSome →
      GeradorCodigoMIPS.alocar_variavel g nome tipo arr = g)
    ∧ (g.var_map.lookup nome = none →
      ∃ d, GeradorCodigoMIPS.alocar_variavel g nome tipo arr =
        { g with var_map := (nome, nome) :: g.var_map,
                 codigo := g.codigo ++ [d] }) := by
  constructor
  · intro h
    simp [GeradorCodigoMIPS.alocar_variavel, h]
  · intro h
    unfold GeradorCodigoMIPS.alocar_variavel
    rw [h]
    simp only [Option.isSome_none, Bool.false_eq_true, if_false]
    split_ifs <;> exact ⟨_, rfl⟩

/-- Witness for C9 at concrete inputs: allocating `x` in the fresh generator
emits its directive and maps `x` to the label `x`; allocating `x` again with
a DIFFERENT type (`flutuante`) and as an array changes nothing at all. -/
theorem C9_alocacao_witness :
    (∃ d, GeradorCodigoMIPS.alocar_variavel .init "x" "inteiro" false =
      { GeradorCodigoMIPS.init with
          var_map := [("x", "x")],
          codigo := GeradorCodigoMIPS.init.codigo ++ [d] }) ∧
    GeradorCodigoMIPS.alocar_variavel
      (GeradorCodigoMIPS.alocar_variavel .init "x" "inteiro" false)
      "x" "flutuante" true =
      GeradorCodigoMIPS.alocar_variavel .init "x" "inteiro" false := by
  exact ⟨(C9_alocacao .init "x" "inteiro" false).2 rfl,
    (C9_alocacao (GeradorCodigoMIPS.alocar_variavel .init "x" "inteiro" false)
      "x" "flutuante" true).1 rfl⟩

/-- C5: lowering an if statement emits, in order: the condition's code, one
branch-if-zero to the first fresh label, the then-block's code, one
unconditional jump to the second fresh label, the false label line, the
else-block's code when present (and nonempty), and the end label line — and
on the spec's Example 3 program (`x`, `y` declared integer,
`se (x > 15 e y != 0) faca escreva("Maior") senao escreva("Menor")`) the
generated assembly contains exactly one conditional branch, one
unconditional jump, and two control-flow label lines. -/
theorem C5_comando_se (g g1 g2 g3 g4 : GeradorCodigoMIPS) (l c : Nat)
    (cond : NoAST) (bt : List NoAST) (bf : Option (List NoAST))
    (rcond : Option String) (label_falso label_fim : String)
    (h1 : GeradorCodigoMIPS.visitar g cond = (rcond, g1))
    (h2 : GeradorCodigoMIPS.nova_label g1 = (label_falso, g2))
    (h3 : GeradorCodigoMIPS.nova_label g2 = (label_fim, g3))
    (h4 : GeradorCodigoMIPS.visitar_list
      (g3.emit ("    beq " ++ GeradorCodigoMIPS.pyReg rcond ++ ", $zero, " ++
        label_falso)) bt = g4) :
    GeradorCodigoMIPS.visitar g (.ComandoSe l c cond bt bf) =
      (none,
        GeradorCodigoMIPS.emit
          (match bf with
           | some bfl =>
               if bfl.isEmpty then
                 (g4.emit ("    j " ++ label_fim)).emit (label_falso ++ ":")
               else
                 GeradorCodigoMIPS.visitar_list
                   ((g4.emit ("    j " ++ label_fim)).emit (label_falso ++ ":")) bfl
           | none => (g4.emit ("    j " ++ label_fim)).emit (label_falso ++ ":"))
          (label_fim ++ ":")) ∧
    ((GeradorCodigoMIPS.gerar .init
      (.Programa 1 1
        [.DeclaracaoVariavel 1 1 "inteiro" "x" none none,
         .DeclaracaoVariavel 1 2 "inteiro" "y" none none,
         .ComandoSe 2 1
           (.ExpressaoBinaria 2 2
             (.ExpressaoBinaria 2 2 (.Identificador 2 2 "x") ">"
               (.Literal 2 2 (.vint 15) "inteiro")) "e"
             (.ExpressaoBinaria 2 3 (.Identificador 2 3 "y") "!="
               (.Literal 2 3 (.vint 0) "inteiro")))
           [.ComandoEscreva 3 1 (.Literal 3 1 (.vstr "Maior") "cadeia")]
           (some [.ComandoEscreva 4 1 (.Literal 4 1 (.vstr "Menor") "cadeia")])])).2.codigo.filter
        (comeca_com "    beq")).length = 1 ∧
    ((GeradorCodigoMIPS.gerar .init
      (.Programa 1 1
        [.DeclaracaoVariavel 1 1 "inteiro" "x" none none,
         .DeclaracaoVariavel 1 2 "inteiro" "y" none none,
         .ComandoSe 2 1
           (.ExpressaoBinaria 2 2
             (.ExpressaoBinaria 2 2 (.Identificador 2 2 "x") ">"
               (.Literal 2 2 (.vint 15) "inteiro")) "e"
             (.ExpressaoBinaria 2 3 (.Identificador 2 3 "y") "!="
               (.Literal 2 3 (.vint 0) "inteiro")))
           [.ComandoEscreva 3 1 (.Literal 3 1 (.vstr "Maior") "cadeia")]
           (some [.ComandoEscreva 4 1 (.Literal 4 1 (.vstr "Menor") "cadeia")])])).2.codigo.filter
        (comeca_com "    j ")).length = 1 ∧
    ((GeradorCodigoMIPS.gerar .init
      (.Programa 1 1
        [.DeclaracaoVariavel 1 1 "inteiro" "x" none none,
         .DeclaracaoVariavel 1 2 "inteiro" "y" none none,
         .ComandoSe 2 1
           (.ExpressaoBinaria 2 2
             (.ExpressaoBinaria 2 2 (.Identificador 2 2 "x") ">"
               (.Literal 2 2 (.vint 15) "inteiro")) "e"
             (.ExpressaoBinaria 2 3 (.Identificador 2 3 "y") "!="
               (.Literal 2 3 (.vint 0) "inteiro")))
           [.ComandoEscreva 3 1 (.Literal 3 1 (.vstr "Maior") "cadeia")]
           (some [.ComandoEscreva 4 1 (.Literal 4 1 (.vstr "Menor") "cadeia")])])).2.codigo.filter
        (fun s => comeca_com "L" s && termina_rotulo s)).length = 2 := by
  refine ⟨?_, by decide, by decide, by decide⟩
  rcases bf with _ | bfl
  · rw [GeradorCodigoMIPS.visitar.eq_10]
    simp only [h1, h2, h3, h4]
  · rw [GeradorCodigoMIPS.visitar.eq_9]
    simp only [h1, h2, h3, h4]

/-- Witness for C5 at a concrete input: an if over a boolean literal with
empty then-block and no else: condition code, branch to `L0`, jump to `L1`,
then the two label lines. -/
theorem C5_comando_se_witness :
    GeradorCodigoMIPS.visitar .init
      (.ComandoSe 1 1 (.Literal 1 1 (.vbool true) "logico") [] none) =
      (none, ⟨[".data", "", "    li $t0, 1", "    beq $t0, $zero, L0",
        "    j L1", "L0:", "L1:"], 1, 2, [], []⟩) := by
  have h := (C5_comando_se .init _ _ _ _ 1 1 (.Literal 1 1 (.vbool true) "logico")
    [] none (some "$t0") "L0" "L1" rfl rfl rfl rfl).1
  simpa using h

/-- C2, evaluating the generator at the failing input
`Programa [inteiro x = 10; escreva(x)]`: the full emitted line list shows the
storage directive and ALL lowered statement code interleaved in the `.data`
region BEFORE the `.text`/`main:` lines, and the entry label `main:` is
followed only by the machine-exit sequence — the lowered program-level
statements do not appear under the top-level entry label as the claim
requires. -/
theorem C2_codigo_fora_do_main :
    (GeradorCodigoMIPS.gerar .init
      (.Programa 1 1
        [.DeclaracaoVariavel 1 1 "inteiro" "x" none
          (some (.Literal 1 1 (.vint 10) "inteiro")),
         .ComandoEscreva 2 1 (.Identificador 2 1 "x")])).2.codigo =
      [".data", "", "x: .word 0", "    li $t0, 10", "    sw $t0, x",
       "    lw $t1, x", "    li $v0, 1", "    move $a0, $t1", "    syscall",
       "    li $v0, 11", "    li $a0, 10", "    syscall",
       "", ".text", "main:", "    li $v0, 10", "    syscall"] ∧
    ((GeradorCodigoMIPS.gerar .init
      (.Programa 1 1
        [.DeclaracaoVariavel 1 1 "inteiro" "x" none
          (some (.Literal 1 1 (.vint 10) "inteiro")),
         .ComandoEscreva 2 1 (.Identificador 2 1 "x")])).2.codigo.dropWhile
      (fun s => s != "main:")) = ["main:", "    li $v0, 10", "    syscall"] := by
  exact ⟨rfl, by decide⟩

namespace AnalisadorSintatico

/-- The token loop records, in input order, exactly one `p_error` record per
unexpected token, appended to whatever errors were already accumulated. -/
theorem percorre_spec (inesperado : TokenPly → Bool) (tokens : List TokenPly) :
    ∀ erros, percorre inesperado erros tokens =
      erros ++ (tokens.filter inesperado).map
        (fun t => ⟨"Erro de sintaxe", t.lineno, t.lexpos, some t.value⟩) := by
  induction tokens with
  | nil => intro erros; simp [percorre]
  | cons t ts ih =>
      intro erros
      by_cases h : inesperado t
      · simp [percorre, p_error, h, ih]
      · simp [percorre, h, ih]

end AnalisadorSintatico

/-- C8: for every token sequence (the engine's unexpected-token
classification and premature-end condition abstracted as `inesperado` and
`incompleto`, the built statements as `comandos`), the `analisar` entry point
is a total function — it never raises — whose error list holds exactly one
record per unexpected token, carrying the fixed message, the token's line and
column and the offending token text, followed by the distinct end-of-input
record when input ran out; and it always returns a `Programa` AST (never
nothing), so downstream stages can still run. -/
theorem C8_analisar_erros (inesperado : TokenPly → Bool) (incompleto : Bool)
    (comandos : List NoAST) (tokens : List TokenPly) :
    (AnalisadorSintatico.analisar inesperado incompleto comandos tokens).2 =
      (tokens.filter inesperado).map
        (fun t => ⟨"Erro de sintaxe", t.lineno, t.lexpos, some t.value⟩) ++
      (if incompleto then [⟨"Fim de arquivo inesperado", 0, 0, none⟩] else []) ∧
    (AnalisadorSintatico.analisar inesperado incompleto comandos tokens).1 =
      NoAST.Programa 1 1 comandos := by
  constructor
  · show (if incompleto then
        AnalisadorSintatico.p_error
          (AnalisadorSintatico.percorre inesperado [] tokens) none
      else AnalisadorSintatico.percorre inesperado [] tokens) = _
    rw [AnalisadorSintatico.percorre_spec]
    cases incompleto <;> simp [AnalisadorSintatico.p_error]
  · rfl
